import Mathlib

/-!
Shallow embedding of the `api-artigos` FastAPI service

This file embeds, in Lean 4, the data model and the request handlers of the
`api-artigos` repository (users and articles CRUD with JWT authentication), and
proves or refutes the specification claims about them.

Conventions of the embedding:

* SQLAlchemy models (`src/models/usuario_model.py`, `src/models/artigo_model.py`)
  become Lean structures; the database becomes an explicit `DB` record holding
  both tables as lists, threaded through every handler.
* Each FastAPI handler becomes a pure function `DB → … → DB × Except RequestFailure α`:
  the returned `DB` is the state after the request (unchanged when the handler
  raises before committing, exactly as the Python raises before any mutation),
  and the `Except` carries either the HTTP response or the failure.
* `raise HTTPException(status, detail)` becomes `RequestFailure.http status detail`;
  an exception that no handler catches (e.g. `ValueError` from `int()`) becomes
  `RequestFailure.uncaught msg`, which FastAPI would surface as HTTP 500.
* The `jose` JWT library and the `passlib` bcrypt hasher are external libraries,
  not code of this repository; their behaviour is modelled from the spec
  (see `jwtDecode` and `gerar_hash_senha` below).
-/

set_option autoImplicit false

namespace ApiArtigos

/-- Application settings, from `src/core/configs.py` (`Settings`).  Only the
fields the authentication slice reads are kept. -/
structure Settings where
  JWT_SECRET : String
  ALGORITHM : String
  ACCESS_TOKEN_EXPIRE_MINUTES : Int
deriving Repr, DecidableEq

/-- The default settings instance `settings = Settings()` of `src/core/configs.py`. -/
def settings : Settings :=
  { JWT_SECRET := "w7PQnn5XdHs14ltivJ3g8r_MirZiR4jb1KEV4sVNdSw"
    ALGORITHM := "HS256"
    ACCESS_TOKEN_EXPIRE_MINUTES := 60 * 24 * 7 }

/-- A row of the `usuarios` table, from `src/models/usuario_model.py`
(`UsuarioModel`).  `senha` stores the password hash. -/
structure Usuario where
  id : Int
  nome : String
  sobrenome : String
  email : String
  senha : String
  admin : Bool
deriving Repr, DecidableEq

/-- A row of the `artigos` table, from `src/models/artigo_model.py`
(`ArtigoModel`).  `usuario_id` is the foreign key to `usuarios.id`. -/
structure Artigo where
  id : Int
  titulo : String
  descricao : String
  url_fonte : String
  usuario_id : Int
deriving Repr, DecidableEq

/-- The database state: the two tables of the application.  Primary keys are
unique in the real database; lookups below model SQLAlchemy's
`.scalars().unique().one_or_none()` as first-match search. -/
structure DB where
  usuarios : List Usuario
  artigos : List Artigo
deriving Repr, DecidableEq

/-- Embeds `select(UsuarioModel).filter(UsuarioModel.id == n)` + `one_or_none()`. -/
def findUsuarioById (db : DB) (n : Int) : Option Usuario :=
  db.usuarios.find? (fun u => u.id == n)

/-- Embeds `select(UsuarioModel).filter(UsuarioModel.email == email)` + `one_or_none()`. -/
def findUsuarioByEmail (db : DB) (email : String) : Option Usuario :=
  db.usuarios.find? (fun u => u.email == email)

/-- Embeds `select(ArtigoModel).filter(ArtigoModel.id == n)` + `one_or_none()`. -/
def findArtigoById (db : DB) (n : Int) : Option Artigo :=
  db.artigos.find? (fun a => a.id == n)

/-- Outcome of a request that did not return normally: either an
`HTTPException(status, detail)` raised by the handler, or an exception no
handler catches (surfaced by the framework as HTTP 500). -/
inductive RequestFailure where
  | http (status : Nat) (detail : String)
  | uncaught (msg : String)
deriving Repr, DecidableEq

/-- The `credential_exception` of `src/core/deps.py` (`get_current_user`):
HTTP 401 Unauthorized. -/
def credentialException : RequestFailure :=
  .http 401 "Não foi possível autenticar a credencial"

/-! Section: Token Issuer/Verifier (`src/core/auth.py` + the `jose` JWT library)

The payload built by `_criar_token` and inspected by `get_current_user`.
A bearer string presented by a client either parses as a signed token or is
malformed. -/

/-- The JWT claim set `{"type": …, "exp": …, "iat": …, "sub": …}` as read back
by `jwt.decode`; `sub` is `Option` because an arbitrary client token may lack
it (`payload.get("sub")` returns `None`). Timestamps are integer seconds. -/
structure TokenPayload where
  type : String
  exp : Int
  iat : Int
  sub : Option String
deriving Repr, DecidableEq

/-- A bearer token as presented by a client: either not a well-formed JWT at
all, or a claim set signed with some secret under some algorithm. -/
inductive BearerToken where
  | malformed
  | signed (payload : TokenPayload) (secret : String) (alg : String)
deriving Repr, DecidableEq

/-- Modelled from the spec: `jwt.decode(token, secret, algorithms=[alg])` of the
external `jose` library (not code of this repository).  Per spec §4.2,
`verify(token_string) -> claims | Invalid` "decodes and checks signature and
expiry; fails … when: signature mismatch, malformed structure, or expiry
passed", and per §3 a "token is valid only if signature matches expected
secret/algorithm AND current time < expiry".  `now` is the verifier's clock in
seconds. -/
def jwtDecode (token : BearerToken) (secret : String) (alg : String) (now : Int) :
    Except String TokenPayload :=
  match token with
  | .malformed => .error "JWTError: Not enough segments"
  | .signed payload tokSecret tokAlg =>
    if tokSecret = secret ∧ tokAlg = alg then
      if now < payload.exp then .ok payload
      else .error "ExpiredSignatureError: Signature has expired"
    else .error "JWTError: Signature verification failed"

/-- Embeds `_criar_token(tipo_token, tempo_vida, sub)` from `src/core/auth.py`:
builds `{"type": tipo_token, "exp": now + tempo_vida, "iat": now, "sub": str(sub)}`
and signs it with `settings.JWT_SECRET` under `settings.ALGORITHM`.
`now` is the issuing clock (`datetime.now(tz=sp)`) in seconds and
`tempoVida` the lifetime in seconds. -/
def criar_token (tipoToken : String) (tempoVida : Int) (sub : String) (now : Int)
    (cfg : Settings) : BearerToken :=
  .signed { type := tipoToken, exp := now + tempoVida, iat := now, sub := some sub }
    cfg.JWT_SECRET cfg.ALGORITHM

/-- Embeds `criar_token_acesso(sub)` from `src/core/auth.py`: an `access_token` with
lifetime `ACCESS_TOKEN_EXPIRE_MINUTES` minutes.  The source passes the user id
(an `int`) as `sub` and `_criar_token` stringifies it with `str(sub)`. -/
def criar_token_acesso (sub : Int) (now : Int) (cfg : Settings) : BearerToken :=
  criar_token "access_token" (cfg.ACCESS_TOKEN_EXPIRE_MINUTES * 60) (toString sub) now cfg

/-! Section: Password hashing (`src/core/security.py` + the `passlib` bcrypt context) -/

/-- Modelled from the spec: `CRIPTO.hash(senha)` of the external `passlib`
bcrypt context (not code of this repository).  Per spec §4.1, `hash(plaintext)`
"produces a self-describing hash (embeds algorithm + salt + cost factor)"
satisfying `verify(password, hash) == true` and `hash != password` (§8).  The
bcrypt digest itself is opaque crypto; it is modelled as the plaintext wrapped
in the self-describing `$2b$12$` envelope, which realises exactly the
spec-level algebra (round-trip verification, hash distinct from plaintext). -/
def gerar_hash_senha (senha : String) : String :=
  "$2b$12$" ++ senha

/-- Modelled from the spec: `CRIPTO.verify(senha, hash_senha)` of the external
`passlib` bcrypt context, the inverse check of `gerar_hash_senha`: true iff the
stored hash is the hash of the offered plaintext. -/
def verificar_senha (senha : String) (hashSenha : String) : Bool :=
  hashSenha == gerar_hash_senha senha

/-! Section: Authenticator and Current-User Resolver -/

/-- Embeds `autenticar(email, senha, db)` from `src/core/auth.py`: look the user up by
exact email match; `None` when absent or when `verificar_senha` rejects the
offered password against the stored hash. -/
def autenticar (email : String) (senha : String) (db : DB) : Option Usuario :=
  match findUsuarioByEmail db email with
  | none => none
  | some usuario =>
    if verificar_senha senha usuario.senha then some usuario else none

/-- Parses a non-empty run of decimal digits, the numeric core of Python's
`int(s)`. -/
def pyNatOfChars (cs : List Char) : Option Nat :=
  if cs.isEmpty then none
  else if cs.all (fun c => c.isDigit) then
    some (cs.foldl (fun n c => n * 10 + (c.toNat - 48)) 0)
  else none

/-- Python's `int(s)` on a string, as used by `get_current_user` on the token
subject: an optional minus sign followed by digits, raising `ValueError`
(here `none`) on the empty string or any non-numeric text.  (CPython also
tolerates surrounding whitespace, a plus sign and digit-group underscores;
those variants never arise for subjects this service issues and do not affect
any claim.) -/
def pyIntOfString (s : String) : Option Int :=
  match s.data with
  | [] => none
  | c :: cs =>
    if c = '-' then (pyNatOfChars cs).map (fun n => -(n : Int))
    else pyNatOfChars (c :: cs)

/-- Embeds `get_current_user(db, token)` from `src/core/deps.py`.  The `try` block
covers `jwt.decode` and the `sub is None` check (but `raise credential_exception`
is an `HTTPException`, which the `except JWTError` clause does not catch, so it
propagates as the 401 it is).  `int(token_data.username)` runs OUTSIDE the
`try`, so a `ValueError` there is an uncaught exception, not a 401. -/
def get_current_user (db : DB) (token : BearerToken) (cfg : Settings) (now : Int) :
    Except RequestFailure Usuario :=
  match jwtDecode token cfg.JWT_SECRET cfg.ALGORITHM now with
  | .error _ => .error credentialException
  | .ok payload =>
    match payload.sub with
    | none => .error credentialException
    | some username =>
      match pyIntOfString username with
      | none => .error (.uncaught "ValueError: invalid literal for int() with base 10")
      | some n =>
        match findUsuarioById db n with
        | none => .error credentialException
        | some usuario => .ok usuario

/-! Section: Article endpoints (`src/api/v1/endpoints/artigo.py`)

Each mutating handler returns the database state after the request together
with the response or failure.  In the source every `raise` happens before any
mutation, so on failure the returned state is the input state. -/

/-- The request body of `POST /artigos/` and (with all fields optional) the
base of the update schema, from `src/schemas/artigo_schema.py`
(`ArtigoSchema`): client-supplied `id` and `usuario_id` are accepted by
validation but, as the handlers show, never read. -/
structure ArtigoSchema where
  id : Option Int
  titulo : String
  descricao : String
  url_fonte : String
  usuario_id : Option Int
deriving Repr, DecidableEq

/-- The request body of `PUT /artigos/{artigo_id}`, from
`src/schemas/artigo_schema.py` (`ArtigoSchemaUp`): every updatable field
optional. -/
structure ArtigoSchemaUp where
  titulo : Option String
  descricao : Option String
  url_fonte : Option String
deriving Repr, DecidableEq

/-- Python truthiness of an `Optional[str]` value, as tested by
`if artigo_atualizado.titulo:` in `put_artigo`: `None` and the empty string
are falsy, any non-empty string is truthy. -/
def pyTruthy : Option String → Bool
  | none => false
  | some s => s != ""

/-- Embeds `post_artigo` (`POST /artigos/`, status 201): builds a new `ArtigoModel`
from `titulo`, `descricao`, `url_fonte` and the AUTHENTICATED user's id
(`usuario_id=usuario_logado.id`), adds and commits it.  `newId` is the
`autoincrement` primary key the database assigns at commit. -/
def post_artigo (db : DB) (artigo : ArtigoSchema) (usuarioLogado : Usuario)
    (newId : Int) : DB × Except RequestFailure Artigo :=
  let novoArtigo : Artigo :=
    { id := newId
      titulo := artigo.titulo
      descricao := artigo.descricao
      url_fonte := artigo.url_fonte
      usuario_id := usuarioLogado.id }
  ({ db with artigos := db.artigos ++ [novoArtigo] }, .ok novoArtigo)

/-- Embeds `get_artigo` (`GET /artigos/{artigo_id}`): the record, or 404. -/
def get_artigo (db : DB) (artigoId : Int) : Except RequestFailure Artigo :=
  match findArtigoById db artigoId with
  | some artigo => .ok artigo
  | none => .error (.http 404 "Artigo não encontrado.")

/-- The field-merge step of `put_artigo`: each field is overwritten iff the
supplied value is TRUTHY (`if artigo_atualizado.titulo:` etc.), so `None` and
`""` both leave the field as it was. -/
def mergeArtigo (artigo : Artigo) (upd : ArtigoSchemaUp) : Artigo :=
  { artigo with
    titulo := if pyTruthy upd.titulo then upd.titulo.getD artigo.titulo else artigo.titulo
    descricao := if pyTruthy upd.descricao then upd.descricao.getD artigo.descricao else artigo.descricao
    url_fonte := if pyTruthy upd.url_fonte then upd.url_fonte.getD artigo.url_fonte else artigo.url_fonte }

/-- Replace the article with primary key `artigoId` by `updated`, leaving every
other row untouched: the effect of mutating the loaded ORM object and
committing. -/
def replaceArtigo (artigos : List Artigo) (artigoId : Int) (updated : Artigo) :
    List Artigo :=
  artigos.map (fun a => if a.id == artigoId then updated else a)

/-- Embeds `put_artigo` (`PUT /artigos/{artigo_id}`, status 202): 404 when the id
matches no row; 401 when the authenticated user is not the creator
(`usuario_logado.id != artigo.usuario_id`), raised before any field is
touched; otherwise merge the truthy fields and commit. -/
def put_artigo (db : DB) (artigoId : Int) (artigoAtualizado : ArtigoSchemaUp)
    (usuarioLogado : Usuario) : DB × Except RequestFailure Artigo :=
  match findArtigoById db artigoId with
  | none => (db, .error (.http 404 "Artigo não encontrado."))
  | some artigo =>
    if usuarioLogado.id ≠ artigo.usuario_id then
      (db, .error (.http 401 "Somente o criador pode atualizar o artigo."))
    else
      let atualizado := mergeArtigo artigo artigoAtualizado
      ({ db with artigos := replaceArtigo db.artigos artigoId atualizado }, .ok atualizado)

/-- The success body of the delete handlers: a `JSONResponse` carrying a
message and an explicit status code. -/
structure JSONMessage where
  status : Nat
  message : String
deriving Repr, DecidableEq

/-- Embeds `delete_artigo` (`DELETE /artigos/{artigo_id}`): 404 when absent; 401 when
the authenticated user is not the creator; otherwise delete the row, commit,
and answer 200 with a success message. -/
def delete_artigo (db : DB) (artigoId : Int) (usuarioLogado : Usuario) :
    DB × Except RequestFailure JSONMessage :=
  match findArtigoById db artigoId with
  | none => (db, .error (.http 404 "Artigo não encontrado."))
  | some artigo =>
    if artigo.usuario_id ≠ usuarioLogado.id then
      (db, .error (.http 401 "Somente o criador pode deletar o artigo."))
    else
      ({ db with artigos := db.artigos.filter (fun a => a.id != artigoId) },
       .ok { status := 200, message := "Exclusão feita com sucesso." })

/-! Section: User endpoints (`src/api/v1/endpoints/usuario.py`) -/

/-- The request body of `POST /usuarios/signup`, from
`src/schemas/usuario_schema.py` (`UsuarioSchemaCreate`): the base user fields
plus the plaintext `senha`. -/
structure UsuarioSchemaCreate where
  id : Option Int
  nome : String
  sobrenome : String
  email : String
  admin : Bool
  senha : String
deriving Repr, DecidableEq

/-- The request body of `PUT /usuarios/{usuario_id}`, from
`src/schemas/usuario_schema.py` (`UsuarioSchemaUp`): every updatable field
optional. -/
structure UsuarioSchemaUp where
  nome : Option String
  sobrenome : Option String
  email : Option String
  senha : Option String
  admin : Option Bool
deriving Repr, DecidableEq

/-- Embeds `post_usuario` (`POST /usuarios/signup`, status 201): builds a
`UsuarioModel` whose `senha` is `gerar_hash_senha(usuario.senha)` and commits
it.  The `email` column is declared `unique=True`
(`src/models/usuario_model.py`), so committing a duplicate email raises
`IntegrityError`, which the handler catches and turns into HTTP 406; the
failed transaction inserts nothing.  `newId` is the autoincrement key. -/
def post_usuario (db : DB) (usuario : UsuarioSchemaCreate) (newId : Int) :
    DB × Except RequestFailure Usuario :=
  if db.usuarios.any (fun u => u.email == usuario.email) then
    (db, .error (.http 406 "Já existe um usuário com esse e-mail cadastrado."))
  else
    let novoUsuario : Usuario :=
      { id := newId
        nome := usuario.nome
        sobrenome := usuario.sobrenome
        email := usuario.email
        senha := gerar_hash_senha usuario.senha
        admin := usuario.admin }
    ({ db with usuarios := db.usuarios ++ [novoUsuario] }, .ok novoUsuario)

/-- The field-merge step of `put_usuario`: each field is overwritten iff the
supplied value `is not None` — the empty string, `False` and `0`-like values
DO overwrite here, unlike `put_artigo`'s truthiness test.  A non-null `senha`
is stored hashed (`gerar_hash_senha`). -/
def mergeUsuario (usuario : Usuario) (upd : UsuarioSchemaUp) : Usuario :=
  { usuario with
    nome := upd.nome.getD usuario.nome
    sobrenome := upd.sobrenome.getD usuario.sobrenome
    email := upd.email.getD usuario.email
    admin := upd.admin.getD usuario.admin
    senha := match upd.senha with
             | none => usuario.senha
             | some s => gerar_hash_senha s }

/-- Replace the user with primary key `usuarioId` by `updated`. -/
def replaceUsuario (usuarios : List Usuario) (usuarioId : Int) (updated : Usuario) :
    List Usuario :=
  usuarios.map (fun u => if u.id == usuarioId then updated else u)

/-- Embeds `put_usuario` (`PUT /usuarios/{usuario_id}`, status 202): 404 when the id
matches no row; otherwise merge the non-null fields and commit.  NOTE: unlike
the article handlers, this endpoint performs no authentication or ownership
check (flagged as an open question in the spec). -/
def put_usuario (db : DB) (usuarioId : Int) (usuarioAtualizado : UsuarioSchemaUp) :
    DB × Except RequestFailure Usuario :=
  match findUsuarioById db usuarioId with
  | none => (db, .error (.http 404 "Usuário não encontrado."))
  | some usuario =>
    let atualizado := mergeUsuario usuario usuarioAtualizado
    ({ db with usuarios := replaceUsuario db.usuarios usuarioId atualizado }, .ok atualizado)

/-- Embeds `delete_usuario` (`DELETE /usuarios/{usuario_id}`): 404 when absent;
otherwise delete the row and commit.  The `artigos` relationship on
`UsuarioModel` is declared `cascade="all, delete-orphan"`
(`src/models/usuario_model.py`), so deleting a user also deletes every article
whose `usuario_id` is that user's id.  Answers 200 with a success message. -/
def delete_usuario (db : DB) (usuarioId : Int) :
    DB × Except RequestFailure JSONMessage :=
  match findUsuarioById db usuarioId with
  | none => (db, .error (.http 404 "Usuário não encontrado."))
  | some usuario =>
    ({ usuarios := db.usuarios.filter (fun u => u.id != usuarioId)
       artigos := db.artigos.filter (fun a => a.usuario_id != usuario.id) },
     .ok { status := 200, message := "Exclusão feita com sucesso." })

/-- The success body of `POST /usuarios/login`: the `JSONResponse` with the
issued bearer token. -/
structure LoginResponse where
  access_token : BearerToken
  token_type : String
deriving Repr, DecidableEq

/-- Embeds `login` (`POST /usuarios/login`): `autenticar` with the form's username as
email; HTTP 400 when it returns `None`, otherwise 200 with
`{"access_token": criar_token_acesso(sub=usuario.id), "token_type": "bearer"}`.
`now` is the clock at token issuance. -/
def login (db : DB) (formUsername formPassword : String) (now : Int)
    (cfg : Settings) : Except RequestFailure (Nat × LoginResponse) :=
  match autenticar formUsername formPassword db with
  | none => .error (.http 400 "Dados de acesso incorretos.")
  | some usuario =>
    .ok (200, { access_token := criar_token_acesso usuario.id now cfg
                token_type := "bearer" })

/-! Section: concrete fixtures used by witnesses and counterexamples -/

/-- Fixture: a stored user. -/
def usuarioW : Usuario :=
  { id := 1, nome := "Ana", sobrenome := "Silva", email := "ana@example.com"
    senha := gerar_hash_senha "pw1", admin := false }

/-- Fixture: a second stored user, distinct from `usuarioW`. -/
def usuarioV : Usuario :=
  { id := 2, nome := "Bia", sobrenome := "Souza", email := "bia@example.com"
    senha := gerar_hash_senha "pw2", admin := false }

/-- Fixture: an article owned by `usuarioW`. -/
def artigoW : Artigo :=
  { id := 1, titulo := "old title", descricao := "old description"
    url_fonte := "http://example.com/a", usuario_id := 1 }

/-- Fixture: a database holding both users and `usuarioW`'s article. -/
def dbW : DB := { usuarios := [usuarioW, usuarioV], artigos := [artigoW] }

/-- Fixture: a correctly signed token for subject "1" expiring at time 100. -/
def tokenValido : BearerToken :=
  .signed { type := "access_token", exp := 100, iat := 0, sub := some "1" }
    settings.JWT_SECRET settings.ALGORITHM

/-- Fixture: a correctly signed token carrying no `sub` claim. -/
def tokenSemSub : BearerToken :=
  .signed { type := "access_token", exp := 100, iat := 0, sub := none }
    settings.JWT_SECRET settings.ALGORITHM

/-- Fixture: the article produced by the C6 creation scenario. -/
def artigoNovoW : Artigo :=
  { id := 2, titulo := "t", descricao := "d", url_fonte := "http://example.com/b"
    usuario_id := 2 }

/-- Fixture: a correctly signed token whose subject matches no stored user. -/
def tokenFantasma : BearerToken :=
  .signed { type := "access_token", exp := 100, iat := 0, sub := some "77" }
    settings.JWT_SECRET settings.ALGORITHM

/-! Section: claims -/

/-- C1: whenever the bearer token fails JWT verification, or carries no `sub`
claim, or its subject parses to an id that matches no stored user,
`get_current_user` fails with the 401 `credential_exception` — so the
dependency raises and no resource handler body runs. -/
theorem C1_invalid_credentials_yield_401 (db : DB) (token : BearerToken)
    (cfg : Settings) (now : Int)
    (h : (∃ e, jwtDecode token cfg.JWT_SECRET cfg.ALGORITHM now = .error e)
       ∨ (∃ p, jwtDecode token cfg.JWT_SECRET cfg.ALGORITHM now = .ok p ∧ p.sub = none)
       ∨ (∃ p s n, jwtDecode token cfg.JWT_SECRET cfg.ALGORITHM now = .ok p
            ∧ p.sub = some s ∧ pyIntOfString s = some n ∧ findUsuarioById db n = none)) :
    get_current_user db token cfg now = .error credentialException := by
  rcases h with ⟨e, he⟩ | ⟨p, hp, hsub⟩ | ⟨p, s, n, hp, hsub, hparse, hfind⟩
  · simp only [get_current_user, he]
  · simp only [get_current_user, hp, hsub]
  · simp only [get_current_user, hp, hsub, hparse, hfind]

/-- Witness for C1: a malformed bearer token, an expired token, a token with no
`sub`, and a valid token for a deleted user all resolve to the 401
`credential_exception` on the fixture database. -/
theorem C1_invalid_credentials_yield_401_witness :
    get_current_user dbW .malformed settings 0 = .error credentialException
    ∧ get_current_user dbW tokenValido settings 100 = .error credentialException
    ∧ get_current_user dbW tokenSemSub settings 0 = .error credentialException
    ∧ get_current_user dbW tokenFantasma settings 0 = .error credentialException :=
  ⟨C1_invalid_credentials_yield_401 dbW .malformed settings 0 (Or.inl ⟨_, rfl⟩),
   C1_invalid_credentials_yield_401 dbW tokenValido settings 100 (Or.inl ⟨_, rfl⟩),
   C1_invalid_credentials_yield_401 dbW tokenSemSub settings 0
     (Or.inr (Or.inl ⟨_, rfl, rfl⟩)),
   C1_invalid_credentials_yield_401 dbW tokenFantasma settings 0
     (Or.inr (Or.inr ⟨_, "77", 77, rfl, rfl, rfl, rfl⟩))⟩

/-- C2 (code bug): a correctly signed, unexpired token whose `sub` is present
but not parseable as an integer (here the strings "abc" and "") does NOT
produce the 401 `credential_exception`: `int(token_data.username)` sits
outside the `try`/`except JWTError` block of `get_current_user`, so the
`ValueError` escapes the handler (HTTP 500), contradicting the spec's
"on parse failure → fail with Unauthenticated". -/
theorem C2_nonnumeric_sub_is_uncaught_not_401 :
    get_current_user dbW
        (.signed { type := "access_token", exp := 100, iat := 0, sub := some "abc" }
          settings.JWT_SECRET settings.ALGORITHM) settings 0
      = .error (.uncaught "ValueError: invalid literal for int() with base 10")
    ∧ get_current_user dbW
        (.signed { type := "access_token", exp := 100, iat := 0, sub := some "" }
          settings.JWT_SECRET settings.ALGORITHM) settings 0
      = .error (.uncaught "ValueError: invalid literal for int() with base 10")
    ∧ RequestFailure.uncaught "ValueError: invalid literal for int() with base 10"
        ≠ credentialException := by
  refine ⟨rfl, rfl, ?_⟩
  intro h
  exact RequestFailure.noConfusion h

/-- C3: a token issued by `_criar_token` for subject `S` with lifetime `L` at
time `t` decodes to subject `str(S)` at any time strictly before `t + L`, is
rejected as expired at or after `t + L`, and in general verification succeeds
only when the token is signed with the verifier's secret and algorithm and the
clock has not reached the `exp` claim. -/
theorem C3_token_lifecycle (cfg : Settings) (S : Int) (L t now : Int) :
    (now < t + L →
      jwtDecode (criar_token "access_token" L (toString S) t cfg)
          cfg.JWT_SECRET cfg.ALGORITHM now
        = .ok { type := "access_token", exp := t + L, iat := t, sub := some (toString S) })
    ∧ (t + L ≤ now →
      jwtDecode (criar_token "access_token" L (toString S) t cfg)
          cfg.JWT_SECRET cfg.ALGORITHM now
        = .error "ExpiredSignatureError: Signature has expired")
    ∧ (∀ (tok : BearerToken) (secret alg : String) (p : TokenPayload),
        jwtDecode tok secret alg now = .ok p →
          tok = .signed p secret alg ∧ now < p.exp) := by
  refine ⟨?_, ?_, ?_⟩
  · intro h
    simp [jwtDecode, criar_token, h]
  · intro h
    simp [jwtDecode, criar_token, not_lt.mpr h]
  · intro tok secret alg p hdec
    cases tok with
    | malformed => exact absurd hdec (by simp [jwtDecode])
    | signed payload tokSecret tokAlg =>
      by_cases hsig : tokSecret = secret ∧ tokAlg = alg
      · by_cases hexp : now < payload.exp
        · have hp : payload = p := by
            simpa [jwtDecode, hsig, hexp] using hdec
          subst hp
          exact ⟨by rw [hsig.1, hsig.2], hexp⟩
        · exact absurd hdec (by simp [jwtDecode, hsig, hexp])
      · exact absurd hdec (by simp [jwtDecode, hsig])

/-- Witness for C3: with the default settings, a token issued for subject 1 at
time 0 with a 100-second lifetime decodes to subject "1" at time 99 and is
rejected at time 100 (the exact expiry instant). -/
theorem C3_token_lifecycle_witness :
    jwtDecode (criar_token "access_token" 100 (toString (1 : Int)) 0 settings)
        settings.JWT_SECRET settings.ALGORITHM 99
      = .ok { type := "access_token", exp := 0 + 100, iat := 0, sub := some (toString (1 : Int)) }
    ∧ jwtDecode (criar_token "access_token" 100 (toString (1 : Int)) 0 settings)
        settings.JWT_SECRET settings.ALGORITHM 100
      = .error "ExpiredSignatureError: Signature has expired" :=
  ⟨(C3_token_lifecycle settings 1 100 0 99).1 (by norm_num),
   (C3_token_lifecycle settings 1 100 0 100).2.1 (by norm_num)⟩

/-- C4: for `PUT`/`DELETE /artigos/{id}` by an authenticated user, a missing
article yields 404 with the database untouched; an existing article owned by a
different user yields 401 with the database untouched; a `DELETE` by the owner
removes exactly that record, keeps every other article and all users, and
answers with the success message. -/
theorem C4_artigo_mutation_guards (db : DB) (artigoId : Int) (upd : ArtigoSchemaUp)
    (user : Usuario) :
    (findArtigoById db artigoId = none →
        put_artigo db artigoId upd user
          = (db, .error (.http 404 "Artigo não encontrado."))
      ∧ delete_artigo db artigoId user
          = (db, .error (.http 404 "Artigo não encontrado.")))
    ∧ (∀ artigo, findArtigoById db artigoId = some artigo →
        user.id ≠ artigo.usuario_id →
        put_artigo db artigoId upd user
          = (db, .error (.http 401 "Somente o criador pode atualizar o artigo."))
      ∧ delete_artigo db artigoId user
          = (db, .error (.http 401 "Somente o criador pode deletar o artigo.")))
    ∧ (∀ artigo, findArtigoById db artigoId = some artigo →
        artigo.usuario_id = user.id →
        (delete_artigo db artigoId user).2
          = .ok { status := 200, message := "Exclusão feita com sucesso." }
      ∧ (∀ a, a ∈ (delete_artigo db artigoId user).1.artigos
            ↔ a ∈ db.artigos ∧ a.id ≠ artigoId)
      ∧ (delete_artigo db artigoId user).1.usuarios = db.usuarios) := by
  refine ⟨?_, ?_, ?_⟩
  · intro h
    exact ⟨by simp only [put_artigo, h], by simp only [delete_artigo, h]⟩
  · intro artigo hfind hne
    have hne' : artigo.usuario_id ≠ user.id := fun h => hne h.symm
    exact ⟨by simp [put_artigo, hfind, hne], by simp [delete_artigo, hfind, hne']⟩
  · intro artigo hfind howner
    have hok : ¬artigo.usuario_id ≠ user.id := fun h => h howner
    refine ⟨by simp [delete_artigo, hfind, hok], ?_, by simp [delete_artigo, hfind, hok]⟩
    intro a
    simp [delete_artigo, hfind, hok, List.mem_filter, bne_iff_ne]

/-- Witness for C4: on the fixture database, `usuarioV` may not update
`usuarioW`'s article, deleting a non-existent article is a 404, and the owner's
delete succeeds. -/
theorem C4_artigo_mutation_guards_witness :
    put_artigo dbW 1 { titulo := some "x", descricao := none, url_fonte := none } usuarioV
      = (dbW, .error (.http 401 "Somente o criador pode atualizar o artigo."))
    ∧ delete_artigo dbW 2 usuarioW
      = (dbW, .error (.http 404 "Artigo não encontrado."))
    ∧ (delete_artigo dbW 1 usuarioW).2
      = .ok { status := 200, message := "Exclusão feita com sucesso." } :=
  ⟨((C4_artigo_mutation_guards dbW 1
      { titulo := some "x", descricao := none, url_fonte := none } usuarioV).2.1
      artigoW rfl (by decide)).1,
   ((C4_artigo_mutation_guards dbW 2
      { titulo := some "x", descricao := none, url_fonte := none } usuarioW).1 rfl).2,
   ((C4_artigo_mutation_guards dbW 1
      { titulo := some "x", descricao := none, url_fonte := none } usuarioW).2.2
      artigoW rfl rfl).1⟩

/-- C5 counterexample: the claim says every NON-NULL supplied field is written,
but `put_artigo` tests Python truthiness, so the non-null empty string
`titulo=""` supplied by the owner is NOT written: the article keeps its old
title. -/
theorem C5_counterexample_empty_string_not_written :
    (put_artigo dbW 1 { titulo := some "", descricao := none, url_fonte := none }
        usuarioW).2
      = .ok artigoW
    ∧ artigoW.titulo = "old title"
    ∧ ("old title" : String) ≠ "" := by
  refine ⟨rfl, rfl, by decide⟩

/-- C5 amended: for `PUT /artigos/{id}` a supplied field overwrites the record
iff it is non-null AND truthy (non-empty); null or empty-string fields keep
their previous values.  For `PUT /usuarios/{id}` exactly the non-null supplied
fields overwrite (a non-null `senha` is stored hashed); null fields keep their
previous values.  No field is ever reset to null. -/
theorem C5_amended_partial_update (db : DB) (aid : Int) (upd : ArtigoSchemaUp)
    (user : Usuario) (uid : Int) (uupd : UsuarioSchemaUp) :
    (∀ artigo atualizado, findArtigoById db aid = some artigo →
        (put_artigo db aid upd user).2 = .ok atualizado →
          (∀ s, upd.titulo = some s → s ≠ "" → atualizado.titulo = s)
        ∧ ((upd.titulo = none ∨ upd.titulo = some "") → atualizado.titulo = artigo.titulo)
        ∧ (∀ s, upd.descricao = some s → s ≠ "" → atualizado.descricao = s)
        ∧ ((upd.descricao = none ∨ upd.descricao = some "") →
            atualizado.descricao = artigo.descricao)
        ∧ (∀ s, upd.url_fonte = some s → s ≠ "" → atualizado.url_fonte = s)
        ∧ ((upd.url_fonte = none ∨ upd.url_fonte = some "") →
            atualizado.url_fonte = artigo.url_fonte))
    ∧ (∀ usuario atualizado, findUsuarioById db uid = some usuario →
        (put_usuario db uid uupd).2 = .ok atualizado →
          (∀ s, uupd.nome = some s → atualizado.nome = s)
        ∧ (uupd.nome = none → atualizado.nome = usuario.nome)
        ∧ (∀ s, uupd.sobrenome = some s → atualizado.sobrenome = s)
        ∧ (uupd.sobrenome = none → atualizado.sobrenome = usuario.sobrenome)
        ∧ (∀ s, uupd.email = some s → atualizado.email = s)
        ∧ (uupd.email = none → atualizado.email = usuario.email)
        ∧ (∀ b, uupd.admin = some b → atualizado.admin = b)
        ∧ (uupd.admin = none → atualizado.admin = usuario.admin)
        ∧ (∀ s, uupd.senha = some s → atualizado.senha = gerar_hash_senha s)
        ∧ (uupd.senha = none → atualizado.senha = usuario.senha)) := by
  constructor
  · intro artigo atualizado hfind hok
    by_cases hown : user.id ≠ artigo.usuario_id
    · simp [put_artigo, hfind, hown] at hok
    · have heq : atualizado = mergeArtigo artigo upd := by
        have := hok
        simp [put_artigo, hfind, hown] at this
        exact this.symm
      subst heq
      refine ⟨?_, ?_, ?_, ?_, ?_, ?_⟩
      · intro s hs hne
        simp [mergeArtigo, pyTruthy, hs, hne]
      · rintro (h | h) <;> simp [mergeArtigo, pyTruthy, h]
      · intro s hs hne
        simp [mergeArtigo, pyTruthy, hs, hne]
      · rintro (h | h) <;> simp [mergeArtigo, pyTruthy, h]
      · intro s hs hne
        simp [mergeArtigo, pyTruthy, hs, hne]
      · rintro (h | h) <;> simp [mergeArtigo, pyTruthy, h]
  · intro usuario atualizado hfind hok
    have heq : atualizado = mergeUsuario usuario uupd := by
      have := hok
      simp [put_usuario, hfind] at this
      exact this.symm
    subst heq
    refine ⟨?_, ?_, ?_, ?_, ?_, ?_, ?_, ?_, ?_, ?_⟩ <;>
      first
        | (intro s hs; simp [mergeUsuario, hs])
        | (intro h; simp [mergeUsuario, h])

/-- Witness for C5 amended: updating the fixture article with
`titulo="novo"` and the non-null but empty `descricao=""` writes the new title
and keeps the old description; updating the fixture user with a new password
stores its hash. -/
theorem C5_amended_partial_update_witness :
    ({ artigoW with titulo := "novo" } : Artigo).titulo = "novo"
    ∧ ({ artigoW with titulo := "novo" } : Artigo).descricao = artigoW.descricao
    ∧ ({ usuarioW with senha := gerar_hash_senha "pw9" } : Usuario).senha
        = gerar_hash_senha "pw9" := by
  have h := C5_amended_partial_update dbW 1
    { titulo := some "novo", descricao := some "", url_fonte := none } usuarioW 1
    { nome := none, sobrenome := none, email := none, senha := some "pw9", admin := none }
  have ha := h.1 artigoW { artigoW with titulo := "novo" } rfl rfl
  have hu := h.2 usuarioW { usuarioW with senha := gerar_hash_senha "pw9" } rfl rfl
  exact ⟨ha.1 "novo" rfl (by decide), ha.2.2.2.1 (Or.inr rfl),
    hu.2.2.2.2.2.2.2.2.1 "pw9" rfl⟩

/-- C6: an article created through `post_artigo` is owned by the authenticated
creator — the handler result does not depend on any `id` or `usuario_id` in
the creation payload — and `put_artigo`, the only article update operation,
never changes `id` or `usuario_id` of any row. -/
theorem C6_owner_assignment_immutable (db : DB) (payload : ArtigoSchema)
    (user : Usuario) (newId : Int) (aid : Int) (upd : ArtigoSchemaUp) (u2 : Usuario) :
    (∀ novo, (post_artigo db payload user newId).2 = .ok novo →
        novo.usuario_id = user.id ∧ novo.id = newId)
    ∧ (∀ p2 : ArtigoSchema, p2.titulo = payload.titulo →
        p2.descricao = payload.descricao → p2.url_fonte = payload.url_fonte →
        post_artigo db p2 user newId = post_artigo db payload user newId)
    ∧ (∀ artigo atualizado, findArtigoById db aid = some artigo →
        (put_artigo db aid upd u2).2 = .ok atualizado →
        atualizado.id = artigo.id ∧ atualizado.usuario_id = artigo.usuario_id)
    ∧ (∀ a, a ∈ (put_artigo db aid upd u2).1.artigos →
        ∃ a0 ∈ db.artigos, a.id = a0.id ∧ a.usuario_id = a0.usuario_id) := by
  refine ⟨?_, ?_, ?_, ?_⟩
  · intro novo hok
    have : novo = { id := newId, titulo := payload.titulo, descricao := payload.descricao,
                    url_fonte := payload.url_fonte, usuario_id := user.id } := by
      simpa [post_artigo] using hok.symm
    subst this
    exact ⟨rfl, rfl⟩
  · intro p2 h1 h2 h3
    simp [post_artigo, h1, h2, h3]
  · intro artigo atualizado hfind hok
    by_cases hown : u2.id ≠ artigo.usuario_id
    · simp [put_artigo, hfind, hown] at hok
    · have heq : atualizado = mergeArtigo artigo upd := by
        have := hok
        simp [put_artigo, hfind, hown] at this
        exact this.symm
      subst heq
      exact ⟨rfl, rfl⟩
  · intro a ha
    rcases hfind : findArtigoById db aid with _ | artigo
    · refine ⟨a, ?_, rfl, rfl⟩
      simpa [put_artigo, hfind] using ha
    · by_cases hown : u2.id ≠ artigo.usuario_id
      · refine ⟨a, ?_, rfl, rfl⟩
        simpa [put_artigo, hfind, hown] using ha
      · have ha' : a ∈ replaceArtigo db.artigos aid (mergeArtigo artigo upd) := by
          simpa [put_artigo, hfind, hown] using ha
        rcases List.mem_map.mp ha' with ⟨a0, ha0, heq⟩
        by_cases hid : a0.id == aid
        · have hmem : artigo ∈ db.artigos := List.mem_of_find?_eq_some hfind
          refine ⟨artigo, hmem, ?_, ?_⟩ <;> simp [← heq, hid, mergeArtigo]
        · refine ⟨a0, ha0, ?_, ?_⟩ <;> simp [← heq, hid]

/-- Witness for C6: posting a payload that tries to claim `id=42` and
`usuario_id=99` while authenticated as `usuarioV` yields an article owned by
`usuarioV` with the server-chosen id 2. -/
theorem C6_owner_assignment_immutable_witness :
    artigoNovoW.usuario_id = usuarioV.id ∧ artigoNovoW.id = 2 :=
  (C6_owner_assignment_immutable dbW
      { id := some 42, titulo := "t", descricao := "d",
        url_fonte := "http://example.com/b", usuario_id := some 99 }
      usuarioV 2 1 { titulo := none, descricao := none, url_fonte := none }
      usuarioW).1 artigoNovoW rfl

/-- C7: signing up with an email already stored fails with HTTP 406 and leaves
the database untouched (in particular the count of users with that email is
unchanged, so it stays 1 when it was 1); signing up with a fresh email
succeeds and appends the new user. -/
theorem C7_signup_email_uniqueness (db : DB) (payload : UsuarioSchemaCreate)
    (newId : Int) :
    ((∃ u ∈ db.usuarios, u.email = payload.email) →
        post_usuario db payload newId
          = (db, .error (.http 406 "Já existe um usuário com esse e-mail cadastrado."))
      ∧ ((post_usuario db payload newId).1.usuarios.filter
            (fun u => u.email == payload.email)).length
          = (db.usuarios.filter (fun u => u.email == payload.email)).length)
    ∧ ((∀ u ∈ db.usuarios, u.email ≠ payload.email) →
        (post_usuario db payload newId).1.usuarios
          = db.usuarios ++
              [{ id := newId, nome := payload.nome, sobrenome := payload.sobrenome,
                 email := payload.email, senha := gerar_hash_senha payload.senha,
                 admin := payload.admin }]
      ∧ (post_usuario db payload newId).2
          = .ok { id := newId, nome := payload.nome, sobrenome := payload.sobrenome,
                  email := payload.email, senha := gerar_hash_senha payload.senha,
                  admin := payload.admin }) := by
  constructor
  · intro hdup
    have hany : db.usuarios.any (fun u => u.email == payload.email) = true := by
      rcases hdup with ⟨u, hu, he⟩
      exact List.any_eq_true.mpr ⟨u, hu, by simp [he]⟩
    constructor
    · simp [post_usuario, hany]
    · simp [post_usuario, hany]
  · intro hfresh
    have hany : db.usuarios.any (fun u => u.email == payload.email) = false := by
      rw [List.any_eq_false]
      intro u hu
      simp [hfresh u hu]
    constructor
    · simp [post_usuario, hany]
    · simp [post_usuario, hany]

/-- Witness for C7: on the fixture database a signup reusing
`ana@example.com` answers 406 and changes nothing, while a fresh email is
appended. -/
theorem C7_signup_email_uniqueness_witness :
    post_usuario dbW
      { id := none, nome := "Eva", sobrenome := "Lima", email := "ana@example.com",
        admin := false, senha := "pw3" } 3
      = (dbW, .error (.http 406 "Já existe um usuário com esse e-mail cadastrado."))
    ∧ (post_usuario dbW
        { id := none, nome := "Eva", sobrenome := "Lima", email := "eva@example.com",
          admin := false, senha := "pw3" } 3).1.usuarios
      = dbW.usuarios ++
          [{ id := 3, nome := "Eva", sobrenome := "Lima", email := "eva@example.com",
             senha := gerar_hash_senha "pw3", admin := false }] :=
  ⟨((C7_signup_email_uniqueness dbW
      { id := none, nome := "Eva", sobrenome := "Lima", email := "ana@example.com",
        admin := false, senha := "pw3" } 3).1
      ⟨usuarioW, by simp [dbW], rfl⟩).1,
   ((C7_signup_email_uniqueness dbW
      { id := none, nome := "Eva", sobrenome := "Lima", email := "eva@example.com",
        admin := false, senha := "pw3" } 3).2 (by decide)).1⟩

/-- C8: deleting an existing user removes that user together with every
article whose `usuario_id` is the user's id (the declared cascade), keeps
every article of other owners, and answers with the success message; deleting
a non-existent user is a 404 that changes nothing. -/
theorem C8_delete_user_cascades (db : DB) (uid : Int) :
    (findUsuarioById db uid = none →
        delete_usuario db uid = (db, .error (.http 404 "Usuário não encontrado.")))
    ∧ (∀ usuario, findUsuarioById db uid = some usuario →
        (delete_usuario db uid).2
          = .ok { status := 200, message := "Exclusão feita com sucesso." }
      ∧ (∀ u, u ∈ (delete_usuario db uid).1.usuarios ↔ u ∈ db.usuarios ∧ u.id ≠ uid)
      ∧ (∀ a, a ∈ (delete_usuario db uid).1.artigos
            ↔ a ∈ db.artigos ∧ a.usuario_id ≠ usuario.id)) := by
  constructor
  · intro h
    simp only [delete_usuario, h]
  · intro usuario hfind
    refine ⟨by simp [delete_usuario, hfind], ?_, ?_⟩
    · intro u
      simp [delete_usuario, hfind, List.mem_filter, bne_iff_ne]
    · intro a
      simp [delete_usuario, hfind, List.mem_filter, bne_iff_ne]

/-- Witness for C8: deleting fixture user 1 removes the user and their
article, and deleting the absent user 99 is a 404. -/
theorem C8_delete_user_cascades_witness :
    (delete_usuario dbW 1).2
      = .ok { status := 200, message := "Exclusão feita com sucesso." }
    ∧ delete_usuario dbW 99 = (dbW, .error (.http 404 "Usuário não encontrado.")) :=
  ⟨((C8_delete_user_cascades dbW 1).2 usuarioW rfl).1,
   (C8_delete_user_cascades dbW 99).1 rfl⟩

/-- C9: `login` fails with HTTP 400 exactly when no stored user has the given
email (exact match) or the offered password does not verify against the stored
hash; otherwise it answers 200 with a bearer `access_token` for the matched
user whose `sub` claim is the stringified user id. -/
theorem C9_login_behaviour (db : DB) (email senha : String) (now : Int)
    (cfg : Settings) :
    (autenticar email senha db = none ↔
        findUsuarioByEmail db email = none
      ∨ ∃ u, findUsuarioByEmail db email = some u
          ∧ verificar_senha senha u.senha = false)
    ∧ (autenticar email senha db = none →
        login db email senha now cfg = .error (.http 400 "Dados de acesso incorretos."))
    ∧ (∀ u, autenticar email senha db = some u →
        login db email senha now cfg
          = .ok (200, { access_token := criar_token_acesso u.id now cfg
                        token_type := "bearer" })
        ∧ criar_token_acesso u.id now cfg
          = .signed { type := "access_token",
                      exp := now + cfg.ACCESS_TOKEN_EXPIRE_MINUTES * 60,
                      iat := now, sub := some (toString u.id) }
              cfg.JWT_SECRET cfg.ALGORITHM) := by
  refine ⟨?_, ?_, ?_⟩
  · rcases hfind : findUsuarioByEmail db email with _ | u
    · simp [autenticar, hfind]
    · by_cases hv : verificar_senha senha u.senha
      · simp [autenticar, hfind, hv]
      · simp only [Bool.not_eq_true] at hv
        simp [autenticar, hfind, hv]
  · intro h
    simp [login, h]
  · intro u hu
    exact ⟨by simp [login, hu], rfl⟩

/-- Witness for C9: on the fixture database, the right password for
`ana@example.com` logs in and yields a bearer token with subject "1", while a
wrong password is a 400. -/
theorem C9_login_behaviour_witness :
    login dbW "ana@example.com" "pw1" 0 settings
      = .ok (200, { access_token := criar_token_acesso usuarioW.id 0 settings
                    token_type := "bearer" })
    ∧ login dbW "ana@example.com" "wrong" 0 settings
      = .error (.http 400 "Dados de acesso incorretos.") :=
  ⟨((C9_login_behaviour dbW "ana@example.com" "pw1" 0 settings).2.2 usuarioW rfl).1,
   (C9_login_behaviour dbW "ana@example.com" "wrong" 0 settings).2.1 rfl⟩

/-- Helper: the modelled bcrypt hash is never the plaintext it hashes (the
self-describing envelope strictly lengthens the string). -/
theorem gerar_hash_senha_ne_senha (s : String) : gerar_hash_senha s ≠ s := by
  intro h
  have hlen := congrArg String.length h
  rw [gerar_hash_senha, String.length_append] at hlen
  have h7 : ("$2b$12$" : String).length = 7 := rfl
  rw [h7] at hlen
  omega

/-- C10: hashing round-trips (`verificar_senha p (gerar_hash_senha p) = true`)
and never returns the plaintext, and both signup and user update with a
non-null `senha` store the hash of the supplied password, never the plaintext
itself. -/
theorem C10_passwords_stored_hashed (p : String) (db : DB)
    (payload : UsuarioSchemaCreate) (newId uid : Int) (uupd : UsuarioSchemaUp) :
    (gerar_hash_senha p ≠ p ∧ verificar_senha p (gerar_hash_senha p) = true)
    ∧ (∀ novo, (post_usuario db payload newId).2 = .ok novo →
        novo.senha = gerar_hash_senha payload.senha ∧ novo.senha ≠ payload.senha)
    ∧ (∀ usuario atualizado s, findUsuarioById db uid = some usuario →
        uupd.senha = some s →
        (put_usuario db uid uupd).2 = .ok atualizado →
        atualizado.senha = gerar_hash_senha s ∧ atualizado.senha ≠ s) := by
  refine ⟨⟨gerar_hash_senha_ne_senha p, by simp [verificar_senha]⟩, ?_, ?_⟩
  · intro novo hok
    by_cases hdup : db.usuarios.any (fun u => u.email == payload.email)
    · simp [post_usuario, hdup] at hok
    · simp only [Bool.not_eq_true] at hdup
      have : novo = { id := newId, nome := payload.nome, sobrenome := payload.sobrenome,
                      email := payload.email, senha := gerar_hash_senha payload.senha,
                      admin := payload.admin } := by
        simpa [post_usuario, hdup] using hok.symm
      subst this
      exact ⟨rfl, gerar_hash_senha_ne_senha payload.senha⟩
  · intro usuario atualizado s hfind hs hok
    have heq : atualizado = mergeUsuario usuario uupd := by
      have := hok
      simp [put_usuario, hfind] at this
      exact this.symm
    subst heq
    refine ⟨by simp [mergeUsuario, hs], ?_⟩
    rw [show (mergeUsuario usuario uupd).senha = gerar_hash_senha s by
      simp [mergeUsuario, hs]]
    exact gerar_hash_senha_ne_senha s

/-- Witness for C10: hashing "pw1" verifies and differs from "pw1", and the
concrete signup of C7's fresh-email scenario stores the hash of "pw3". -/
theorem C10_passwords_stored_hashed_witness :
    (gerar_hash_senha "pw1" ≠ "pw1" ∧ verificar_senha "pw1" (gerar_hash_senha "pw1") = true)
    ∧ ({ id := 3, nome := "Eva", sobrenome := "Lima", email := "eva@example.com",
         senha := gerar_hash_senha "pw3", admin := false } : Usuario).senha
        = gerar_hash_senha "pw3" :=
  ⟨(C10_passwords_stored_hashed "pw1" dbW
      { id := none, nome := "Eva", sobrenome := "Lima", email := "eva@example.com",
        admin := false, senha := "pw3" } 3 1
      { nome := none, sobrenome := none, email := none, senha := none,
        admin := none }).1,
   ((C10_passwords_stored_hashed "pw1" dbW
      { id := none, nome := "Eva", sobrenome := "Lima", email := "eva@example.com",
        admin := false, senha := "pw3" } 3 1
      { nome := none, sobrenome := none, email := none, senha := none,
        admin := none }).2.1
      { id := 3, nome := "Eva", sobrenome := "Lima", email := "eva@example.com",
        senha := gerar_hash_senha "pw3", admin := false } rfl).1⟩

end ApiArtigos
